import Mathlib

/-!
Verification of the UFCx interface header (`src/ffcx/codegeneration/ufcx.h`).

The header is a plain-data ABI contract: an enum, four function-pointer
typedefs and three structs.  The embedding below transcribes those C
declarations into Lean data (`CScalar`, `CType`, `CFunSig`, field lists) and
models, where the header only declares behaviour that generated code must
implement, that behaviour from the specification's words.
-/

/-- C scalar/base types that occur in ufcx.h. -/
inductive CScalar where
  | float
  | double
  | complexFloat
  | complexDouble
  | int32
  | uint8
  | uint64
  | boolean
  | char
  | void
deriving DecidableEq, Repr

/-- The four numeric kinds of tabulation kernels (real/complex crossed with
single/double precision). -/
inductive NumericKind where
  | float32
  | float64
  | complex64
  | complex128
deriving DecidableEq, Repr

/-- C types as used in the header: scalars, (possibly const-pointee) pointers,
pointers to one of the four kernel typedefs, and named struct types. -/
inductive CType where
  | scalar (s : CScalar)
  | ptr (pointee : CType) (constPointee : Bool)
  | kernelPtr (k : NumericKind)
  | named (n : String)
deriving DecidableEq, Repr

/-- A declared parameter of a C function typedef. -/
structure CParam where
  name : String
  type : CType
deriving DecidableEq, Repr

/-- A C function signature: parameter list and return type. -/
structure CFunSig where
  params : List CParam
  ret : CType
deriving DecidableEq, Repr

/-- The scalar type of `A`, `w` and `c` for each numeric kind. -/
def scalarOf : NumericKind → CScalar
  | .float32 => .float
  | .float64 => .double
  | .complex64 => .complexFloat
  | .complex128 => .complexDouble

/-- The scalar type of `coordinate_dofs` for each numeric kind. -/
def realScalarOf : NumericKind → CScalar
  | .float32 => .float
  | .float64 => .double
  | .complex64 => .float
  | .complex128 => .double

/-- Whether a scalar is a complex type. -/
def isComplexScalar : CScalar → Bool
  | .complexFloat => true
  | .complexDouble => true
  | _ => false

/-- `typedef void(ufcx_tabulate_tensor_float32)(...)` (ufcx.h lines 85-89). -/
def ufcx_tabulate_tensor_float32 : CFunSig :=
  { params := [⟨"A", .ptr (.scalar .float) false⟩,
               ⟨"w", .ptr (.scalar .float) true⟩,
               ⟨"c", .ptr (.scalar .float) true⟩,
               ⟨"coordinate_dofs", .ptr (.scalar .float) true⟩,
               ⟨"entity_local_index", .ptr (.scalar .int32) true⟩,
               ⟨"quadrature_permutation", .ptr (.scalar .uint8) true⟩],
    ret := .scalar .void }

/-- `typedef void(ufcx_tabulate_tensor_float64)(...)` (ufcx.h lines 95-99). -/
def ufcx_tabulate_tensor_float64 : CFunSig :=
  { params := [⟨"A", .ptr (.scalar .double) false⟩,
               ⟨"w", .ptr (.scalar .double) true⟩,
               ⟨"c", .ptr (.scalar .double) true⟩,
               ⟨"coordinate_dofs", .ptr (.scalar .double) true⟩,
               ⟨"entity_local_index", .ptr (.scalar .int32) true⟩,
               ⟨"quadrature_permutation", .ptr (.scalar .uint8) true⟩],
    ret := .scalar .void }

/-- `typedef void(ufcx_tabulate_tensor_complex64)(...)` (ufcx.h lines 105-109);
`A`, `w`, `c` are `float _Complex`, `coordinate_dofs` stays `float`. -/
def ufcx_tabulate_tensor_complex64 : CFunSig :=
  { params := [⟨"A", .ptr (.scalar .complexFloat) false⟩,
               ⟨"w", .ptr (.scalar .complexFloat) true⟩,
               ⟨"c", .ptr (.scalar .complexFloat) true⟩,
               ⟨"coordinate_dofs", .ptr (.scalar .float) true⟩,
               ⟨"entity_local_index", .ptr (.scalar .int32) true⟩,
               ⟨"quadrature_permutation", .ptr (.scalar .uint8) true⟩],
    ret := .scalar .void }

/-- `typedef void(ufcx_tabulate_tensor_complex128)(...)` (ufcx.h lines 115-119);
`A`, `w`, `c` are `double _Complex`, `coordinate_dofs` stays `double`. -/
def ufcx_tabulate_tensor_complex128 : CFunSig :=
  { params := [⟨"A", .ptr (.scalar .complexDouble) false⟩,
               ⟨"w", .ptr (.scalar .complexDouble) true⟩,
               ⟨"c", .ptr (.scalar .complexDouble) true⟩,
               ⟨"coordinate_dofs", .ptr (.scalar .double) true⟩,
               ⟨"entity_local_index", .ptr (.scalar .int32) true⟩,
               ⟨"quadrature_permutation", .ptr (.scalar .uint8) true⟩],
    ret := .scalar .void }

/-- The kernel typedef for each numeric kind. -/
def kernelSig : NumericKind → CFunSig
  | .float32 => ufcx_tabulate_tensor_float32
  | .float64 => ufcx_tabulate_tensor_float64
  | .complex64 => ufcx_tabulate_tensor_complex64
  | .complex128 => ufcx_tabulate_tensor_complex128

/-- All tabulation-kernel typedefs declared by the header, in source order. -/
def tabulateTensorSignatures : List (NumericKind × CFunSig) :=
  [(.float32, ufcx_tabulate_tensor_float32),
   (.float64, ufcx_tabulate_tensor_float64),
   (.complex64, ufcx_tabulate_tensor_complex64),
   (.complex128, ufcx_tabulate_tensor_complex128)]

/-- The integral-kind enum of ufcx.h lines 44-49. -/
inductive ufcx_integral_type where
  | cell
  | exterior_facet
  | interior_facet
deriving DecidableEq, Repr

/-- The integer value assigned to each enumerator (`cell = 0`,
`exterior_facet = 1`, `interior_facet = 2`). -/
def ufcx_integral_type.toNat : ufcx_integral_type → Nat
  | .cell => 0
  | .exterior_facet => 1
  | .interior_facet => 2

/-- A declared field of a C struct. -/
structure CField where
  name : String
  type : CType
deriving DecidableEq, Repr

/-- Fields of `struct ufcx_integral` (ufcx.h lines 121-132), in source order. -/
def ufcx_integral_fields : List CField :=
  [⟨"enabled_coefficients", .ptr (.scalar .boolean) true⟩,
   ⟨"tabulate_tensor_float32", .kernelPtr .float32⟩,
   ⟨"tabulate_tensor_float64", .kernelPtr .float64⟩,
   ⟨"tabulate_tensor_complex64", .kernelPtr .complex64⟩,
   ⟨"tabulate_tensor_complex128", .kernelPtr .complex128⟩,
   ⟨"needs_facet_permutations", .scalar .boolean⟩,
   ⟨"coordinate_element_hash", .scalar .uint64⟩]

/-- Fields of `struct ufcx_expression` (ufcx.h lines 134-182), in source order. -/
def ufcx_expression_fields : List CField :=
  [⟨"tabulate_tensor_float32", .kernelPtr .float32⟩,
   ⟨"tabulate_tensor_float64", .kernelPtr .float64⟩,
   ⟨"tabulate_tensor_complex64", .kernelPtr .complex64⟩,
   ⟨"tabulate_tensor_complex128", .kernelPtr .complex128⟩,
   ⟨"num_coefficients", .scalar .int32⟩,
   ⟨"num_constants", .scalar .int32⟩,
   ⟨"original_coefficient_positions", .ptr (.scalar .int32) true⟩,
   ⟨"coefficient_names", .ptr (.ptr (.scalar .char) true) false⟩,
   ⟨"constant_names", .ptr (.ptr (.scalar .char) true) false⟩,
   ⟨"num_points", .scalar .int32⟩,
   ⟨"entity_dimension", .scalar .int32⟩,
   ⟨"points", .ptr (.scalar .double) true⟩,
   ⟨"value_shape", .ptr (.scalar .int32) true⟩,
   ⟨"num_components", .scalar .int32⟩,
   ⟨"rank", .scalar .int32⟩]

/-- Fields of `struct ufcx_form` (ufcx.h lines 198-237), in source order. -/
def ufcx_form_fields : List CField :=
  [⟨"signature", .ptr (.scalar .char) true⟩,
   ⟨"rank", .scalar .int32⟩,
   ⟨"num_coefficients", .scalar .int32⟩,
   ⟨"num_constants", .scalar .int32⟩,
   ⟨"original_coefficient_positions", .ptr (.scalar .int32) false⟩,
   ⟨"coefficient_name_map", .ptr (.ptr (.scalar .char) true) false⟩,
   ⟨"constant_name_map", .ptr (.ptr (.scalar .char) true) false⟩,
   ⟨"finite_element_hashes", .ptr (.scalar .uint64) false⟩,
   ⟨"form_integrals", .ptr (.ptr (.named "ufcx_integral") false) false⟩,
   ⟨"form_integral_ids", .ptr (.scalar .int32) false⟩,
   ⟨"form_integral_offsets", .ptr (.scalar .int32) false⟩]

/-- If a struct field stores a function pointer, the return type of that
function; otherwise `none`. -/
def fieldFunRet : CType → Option CType
  | .kernelPtr k => some (kernelSig k).ret
  | _ => none

/-- C preprocessor tokens relevant to the `UFCX_VERSION` macro: integer
literals and string literals. -/
inductive CToken where
  | intLit (n : Nat)
  | strLit (s : String)
deriving DecidableEq, Repr

/-- Expansion of the `UFCX_VERSION` macro (ufcx.h lines 13-24) as the token
sequence the preprocessor produces: `UFCX_VERSION_MAJOR` etc. expand to the
integer tokens they are defined as, the `"."` and `".dev0"` pieces are string
literals, and the `#if UFCX_VERSION_RELEASE` choice selects the branch. -/
def ufcxVersionTokens (major minor maintenance release : Nat) : List CToken :=
  if release ≠ 0 then
    [.intLit major, .strLit ".", .intLit minor, .strLit ".", .intLit maintenance]
  else
    [.intLit major, .strLit ".", .intLit minor, .strLit ".", .intLit maintenance,
     .strLit ".dev0"]

/-- C translation-phase-6 concatenation of adjacent string literals: a token
sequence denotes a string only if every token is a string literal. -/
def concatStringLits : List CToken → Option String
  | [] => some ""
  | .strLit s :: rest => (concatStringLits rest).map (fun t => s ++ t)
  | .intLit _ :: _ => none

/-- The expansion the header intends: the same token sequence with the numeric
components stringified (as a `#`-stringifying helper macro would produce). -/
def stringifyTok : CToken → CToken
  | .intLit n => .strLit (toString n)
  | .strLit s => .strLit s

/-- An integral as it appears in a form's integral list: its ID and the kind
of mesh entity it is tabulated on. -/
structure IntegralData where
  integralId : Int
  kind : ufcx_integral_type
deriving DecidableEq, Repr

/-- A constructed `ufcx_form`'s integral layout and finite-element hash array,
with the pointer fields of the C struct materialised as lists. -/
structure FormModel where
  rank : Nat
  num_coefficients : Nat
  finite_element_hashes : List Nat
  form_integrals : List IntegralData
  form_integral_ids : List Int
  form_integral_offsets : List Nat
deriving DecidableEq, Repr

/-- Modelled from the spec: the FFCx generator that populates `ufcx_form` is
not part of the header.  Per the spec, `finite_element_hashes` holds one hash
per argument followed by one per coefficient, and `form_integrals` /
`form_integral_ids` are grouped by integral kind in enum order (cell,
exterior_facet, interior_facet) with `form_integral_offsets` (length 4)
delimiting the three groups. -/
def mkForm (argumentHashes coefficientHashes : List Nat)
    (integrals : List IntegralData) : FormModel :=
  let cells := integrals.filter (fun x => x.kind == ufcx_integral_type.cell)
  let exts := integrals.filter (fun x => x.kind == ufcx_integral_type.exterior_facet)
  let ints := integrals.filter (fun x => x.kind == ufcx_integral_type.interior_facet)
  { rank := argumentHashes.length
    num_coefficients := coefficientHashes.length
    finite_element_hashes := argumentHashes ++ coefficientHashes
    form_integrals := cells ++ exts ++ ints
    form_integral_ids := (cells ++ exts ++ ints).map (fun x => x.integralId)
    form_integral_offsets :=
      [0, cells.length, cells.length + exts.length,
       cells.length + exts.length + ints.length] }

/-- Modelled from the spec: a generated tabulation kernel's body is not part
of the header; per the spec it is a pure function of the caller-supplied
buffers `w`, `c`, `coordinate_dofs`, `entity_local_index` and
`quadrature_permutation`, producing the tensor `A`. -/
structure TabKernel where
  compute : List Int → List Int → List Int → Option Int → Option (List Nat) → List Int

/-- The buffers a caller passes to a tabulation kernel (null pointers as
`none`). -/
structure KernelBuffers where
  A : List Int
  w : List Int
  c : List Int
  coordinate_dofs : List Int
  entity_local_index : Option Int
  quadrature_permutation : Option (List Nat)
deriving DecidableEq, Repr

/-- Invoking a kernel overwrites `A` with the computed tensor and touches no
other buffer. -/
def invoke (k : TabKernel) (st : KernelBuffers) : KernelBuffers :=
  { st with
    A := k.compute st.w st.c st.coordinate_dofs st.entity_local_index
           st.quadrature_permutation }

/-- Modelled from the spec: a generated kernel for an integral of a given
kind.  Per the header's contract (ufcx.h lines 73-84), only interior-facet
kernels read `quadrature_permutation`, and they read one entry per cell
adjacent to the facet (the array has size 2). -/
structure IntegralKernel where
  itype : ufcx_integral_type
  baseCompute : List Int → List Int → List Int → Option Int → List Int
  facetCompute : List Int → List Int → List Int → Option Int → Nat → Nat → List Int

/-- Tabulation through an `IntegralKernel`: interior-facet kernels consume the
two permutation entries, all other kinds ignore the argument entirely. -/
def IntegralKernel.tabulate (k : IntegralKernel) (w c coords : List Int)
    (eli : Option Int) (qp : Option (List Nat)) : List Int :=
  match k.itype with
  | .interior_facet =>
      let p := qp.getD []
      k.facetCompute w c coords eli (p.getD 0 0) (p.getD 1 0)
  | _ => k.baseCompute w c coords eli

/-- Modelled from the spec: a generated `ufcx_expression`'s evaluation points
and kernels are not part of the header; per the header's documented
dimensions, `points` is `[num_points][entity_dimension]` and the output
tensor is `[num_points][num_components][num_argument_dofs]`. -/
structure ExprModel where
  num_points : Nat
  num_components : Nat
  num_argument_dofs : Nat
  entity_dimension : Nat
  pointCoord : Nat → Nat → Int
  value : Nat → Nat → Nat → Int

/-- The evaluation-point array of an expression, materialised as nested
lists of the documented dimensions. -/
def ExprModel.points (e : ExprModel) : List (List Int) :=
  (List.range e.num_points).map
    (fun i => (List.range e.entity_dimension).map (fun j => e.pointCoord i j))

/-- The output tensor written by an expression's tabulation kernel,
materialised as nested lists of the documented dimensions. -/
def ExprModel.tabulate (e : ExprModel) : List (List (List Int)) :=
  (List.range e.num_points).map fun i =>
    (List.range e.num_components).map fun j =>
      (List.range e.num_argument_dofs).map fun d => e.value i j d

/-- A sample kernel used to exercise the purity theorem. -/
def sampleTabKernel : TabKernel :=
  ⟨fun w c coords _ _ => w ++ c ++ coords⟩

/-- A sample cell-integral kernel. -/
def sampleCellKernel : IntegralKernel :=
  ⟨.cell, fun w _ _ _ => w, fun _ _ _ _ a b => [Int.ofNat (a + b)]⟩

/-- A sample interior-facet kernel. -/
def sampleInteriorKernel : IntegralKernel :=
  ⟨.interior_facet, fun w _ _ _ => w, fun _ _ _ _ a b => [Int.ofNat (a + 2 * b)]⟩

/-- Helper: every element of a filtered list satisfies the filter predicate. -/
theorem filter_all_self (p : IntegralData → Bool) (m : List IntegralData) :
    (m.filter p).all p = true := by
  rw [List.all_eq_true]
  intro x hx
  exact (List.mem_filter.1 hx).2

/-- C2: with MAJOR=0, MINOR=9, MAINTENANCE=0, RELEASE=0 the `UFCX_VERSION`
macro expands to the token sequence `0 "." 9 "." 0 ".dev0"`, which mixes
integer-literal and string-literal tokens; C concatenates only adjacent string
literals, so the expansion denotes no string at all — in particular not
`"0.9.0.dev0"`.  The nonzero-release branch fails the same way, while the
stringified token sequence (what a `#`-stringifying helper would produce)
does concatenate to `"0.9.0.dev0"`, confirming the intended result. -/
theorem ufcx_version_macro_not_a_string :
    ufcxVersionTokens 0 9 0 0 =
      [CToken.intLit 0, CToken.strLit ".", CToken.intLit 9, CToken.strLit ".",
       CToken.intLit 0, CToken.strLit ".dev0"] ∧
    concatStringLits (ufcxVersionTokens 0 9 0 0) = none ∧
    concatStringLits (ufcxVersionTokens 0 9 0 1) = none ∧
    concatStringLits ((ufcxVersionTokens 0 9 0 0).map stringifyTok) =
      some "0.9.0.dev0" := by
  refine ⟨by decide, by decide, by decide, by decide⟩

/-- C3: the header declares exactly four tabulation-kernel typedefs, one per
numeric kind (float32, float64, complex64, complex128), each taking the six
documented parameters (`A` mutable, `w`, `c`, `coordinate_dofs`,
`entity_local_index`, `quadrature_permutation` all const) and returning
`void`. -/
theorem four_tabulate_tensor_signatures :
    tabulateTensorSignatures.length = 4 ∧
    tabulateTensorSignatures.map Prod.fst =
      [NumericKind.float32, NumericKind.float64, NumericKind.complex64,
       NumericKind.complex128] ∧
    tabulateTensorSignatures.all (fun p =>
      p.2.ret == CType.scalar CScalar.void &&
      p.2.params.length == 6 &&
      p.2.params.map CParam.name ==
        ["A", "w", "c", "coordinate_dofs", "entity_local_index",
         "quadrature_permutation"] &&
      (p.2.params.getD 0 ⟨"", CType.scalar CScalar.void⟩).type ==
        CType.ptr (CType.scalar (scalarOf p.1)) false &&
      (p.2.params.getD 1 ⟨"", CType.scalar CScalar.void⟩).type ==
        CType.ptr (CType.scalar (scalarOf p.1)) true &&
      (p.2.params.getD 2 ⟨"", CType.scalar CScalar.void⟩).type ==
        CType.ptr (CType.scalar (scalarOf p.1)) true &&
      (p.2.params.getD 3 ⟨"", CType.scalar CScalar.void⟩).type ==
        CType.ptr (CType.scalar (realScalarOf p.1)) true &&
      (p.2.params.getD 4 ⟨"", CType.scalar CScalar.void⟩).type ==
        CType.ptr (CType.scalar CScalar.int32) true &&
      (p.2.params.getD 5 ⟨"", CType.scalar CScalar.void⟩).type ==
        CType.ptr (CType.scalar CScalar.uint8) true) = true := by
  refine ⟨rfl, rfl, by decide⟩

/-- C4: the integral-kind enum has exactly the three enumerators
`cell = 0`, `exterior_facet = 1`, `interior_facet = 2`; the mapping is a
fixed constant of the interface. -/
theorem integral_type_enum_values :
    ufcx_integral_type.toNat ufcx_integral_type.cell = 0 ∧
    ufcx_integral_type.toNat ufcx_integral_type.exterior_facet = 1 ∧
    ufcx_integral_type.toNat ufcx_integral_type.interior_facet = 2 ∧
    ∀ t : ufcx_integral_type,
      t = ufcx_integral_type.cell ∨ t = ufcx_integral_type.exterior_facet ∨
        t = ufcx_integral_type.interior_facet := by
  refine ⟨rfl, rfl, rfl, ?_⟩
  intro t
  cases t
  · exact Or.inl rfl
  · exact Or.inr (Or.inl rfl)
  · exact Or.inr (Or.inr rfl)

/-- C5: no failure channel exists in the interface: every tabulation-kernel
typedef returns `void`, and every field of `ufcx_integral`,
`ufcx_expression` and `ufcx_form` that stores a callable stores one of those
`void`-returning kernels, so no signature or field communicates an error. -/
theorem no_failure_channel :
    tabulateTensorSignatures.all
      (fun p => p.2.ret == CType.scalar CScalar.void) = true ∧
    (ufcx_integral_fields ++ ufcx_expression_fields ++ ufcx_form_fields).all
      (fun f =>
        match fieldFunRet f.type with
        | some r => r == CType.scalar CScalar.void
        | none => true) = true := by
  refine ⟨by decide, by decide⟩

/-- C6: a tabulation kernel is a pure function of the caller-supplied
buffers: two invocations with equal `w`, `c`, `coordinate_dofs`,
`entity_local_index` and `quadrature_permutation` write the same tensor `A`,
and an invocation modifies only `A`, leaving every input buffer unchanged. -/
theorem tabulate_tensor_pure (k : TabKernel) (s1 s2 : KernelBuffers)
    (hw : s1.w = s2.w) (hc : s1.c = s2.c)
    (hx : s1.coordinate_dofs = s2.coordinate_dofs)
    (he : s1.entity_local_index = s2.entity_local_index)
    (hq : s1.quadrature_permutation = s2.quadrature_permutation) :
    (invoke k s1).A = (invoke k s2).A ∧
    (invoke k s1).w = s1.w ∧
    (invoke k s1).c = s1.c ∧
    (invoke k s1).coordinate_dofs = s1.coordinate_dofs ∧
    (invoke k s1).entity_local_index = s1.entity_local_index ∧
    (invoke k s1).quadrature_permutation = s1.quadrature_permutation := by
  refine ⟨?_, rfl, rfl, rfl, rfl, rfl⟩
  simp [invoke, hw, hc, hx, he, hq]

/-- Witness for the purity theorem: two buffer states differing only in the
initial contents of `A` produce the same output tensor, and the inputs are
untouched. -/
theorem tabulate_tensor_pure_witness :
    (invoke sampleTabKernel ⟨[7], [1], [2], [3], some 4, some [5]⟩).A =
      (invoke sampleTabKernel ⟨[9], [1], [2], [3], some 4, some [5]⟩).A ∧
    (invoke sampleTabKernel ⟨[7], [1], [2], [3], some 4, some [5]⟩).w = [1] ∧
    (invoke sampleTabKernel ⟨[7], [1], [2], [3], some 4, some [5]⟩).c = [2] ∧
    (invoke sampleTabKernel ⟨[7], [1], [2], [3], some 4, some [5]⟩).coordinate_dofs = [3] ∧
    (invoke sampleTabKernel ⟨[7], [1], [2], [3], some 4, some [5]⟩).entity_local_index = some 4 ∧
    (invoke sampleTabKernel ⟨[7], [1], [2], [3], some 4, some [5]⟩).quadrature_permutation = some [5] :=
  tabulate_tensor_pure sampleTabKernel
    ⟨[7], [1], [2], [3], some 4, some [5]⟩
    ⟨[9], [1], [2], [3], some 4, some [5]⟩ rfl rfl rfl rfl rfl

/-- C7: in a constructed form with rank `r` and `n` coefficients,
`finite_element_hashes` has length `r + n`; entry `i < r` is the hash of
argument `i`, and entry `i` with `r ≤ i` is the hash of coefficient
`i - r`. -/
theorem finite_element_hashes_indexing (a c : List Nat) (l : List IntegralData)
    (i : Nat) :
    (mkForm a c l).finite_element_hashes.length =
      (mkForm a c l).rank + (mkForm a c l).num_coefficients ∧
    (mkForm a c l).finite_element_hashes.getD i 0 =
      if i < (mkForm a c l).rank then a.getD i 0
      else c.getD (i - (mkForm a c l).rank) 0 := by
  constructor
  · simp [mkForm]
  · have hh : (mkForm a c l).finite_element_hashes = a ++ c := rfl
    have hr : (mkForm a c l).rank = a.length := rfl
    rw [hh, hr]
    by_cases h : i < a.length
    · rw [if_pos h]
      exact List.getD_append a c 0 i h
    · rw [if_neg h]
      exact List.getD_append_right a c 0 i (Nat.le_of_not_lt h)

/-- C8: in the complex kernel variants the geometry stays real: `A`, `w`, `c`
point to complex scalars while `coordinate_dofs` points to `float`
(complex64) resp. `double` (complex128); in all four variants the
`coordinate_dofs` scalar is non-complex. -/
theorem complex_kernels_real_geometry :
    (ufcx_tabulate_tensor_complex64.params.getD 3
        ⟨"", CType.scalar CScalar.void⟩).type =
      CType.ptr (CType.scalar CScalar.float) true ∧
    (ufcx_tabulate_tensor_complex128.params.getD 3
        ⟨"", CType.scalar CScalar.void⟩).type =
      CType.ptr (CType.scalar CScalar.double) true ∧
    isComplexScalar (scalarOf NumericKind.complex64) = true ∧
    isComplexScalar (scalarOf NumericKind.complex128) = true ∧
    tabulateTensorSignatures.all (fun p =>
      (p.2.params.getD 3 ⟨"", CType.scalar CScalar.void⟩).type ==
        CType.ptr (CType.scalar (realScalarOf p.1)) true &&
      !isComplexScalar (realScalarOf p.1) &&
      (p.2.params.getD 0 ⟨"", CType.scalar CScalar.void⟩).type ==
        CType.ptr (CType.scalar (scalarOf p.1)) false &&
      (p.2.params.getD 1 ⟨"", CType.scalar CScalar.void⟩).type ==
        CType.ptr (CType.scalar (scalarOf p.1)) true &&
      (p.2.params.getD 2 ⟨"", CType.scalar CScalar.void⟩).type ==
        CType.ptr (CType.scalar (scalarOf p.1)) true) = true := by
  refine ⟨rfl, rfl, rfl, rfl, by decide⟩

/-- C9: for a kernel of any integral kind other than interior_facet the
`quadrature_permutation` argument has no effect (null and any array give the
same tensor); an interior-facet kernel consumes exactly the two entries (one
per adjacent cell) of the permutation array. -/
theorem quadrature_permutation_usage (k : IntegralKernel) (w c coords : List Int)
    (eli : Option Int) :
    (k.itype ≠ ufcx_integral_type.interior_facet →
      ∀ qp1 qp2 : Option (List Nat),
        k.tabulate w c coords eli qp1 = k.tabulate w c coords eli qp2) ∧
    (k.itype = ufcx_integral_type.interior_facet →
      ∀ p1 p2 : List Nat,
        p1.getD 0 0 = p2.getD 0 0 → p1.getD 1 0 = p2.getD 1 0 →
          k.tabulate w c coords eli (some p1) =
            k.tabulate w c coords eli (some p2)) := by
  constructor
  · intro hne qp1 qp2
    cases ht : k.itype
    · simp [IntegralKernel.tabulate, ht]
    · simp [IntegralKernel.tabulate, ht]
    · exact absurd ht hne
  · intro heq p1 p2 h0 h1
    simp only [List.getD_eq_getElem?_getD] at h0 h1
    simp [IntegralKernel.tabulate, heq, h0, h1]

/-- Witness: a cell kernel ignores the permutation argument entirely, and an
interior-facet kernel depends only on the two permutation entries. -/
theorem quadrature_permutation_usage_witness :
    sampleCellKernel.tabulate [3] [] [] none none =
      sampleCellKernel.tabulate [3] [] [] none (some [5, 6]) ∧
    sampleInteriorKernel.tabulate [] [] [] none (some [1, 2, 9]) =
      sampleInteriorKernel.tabulate [] [] [] none (some [1, 2, 7]) :=
  ⟨(quadrature_permutation_usage sampleCellKernel [3] [] [] none).1
      (by decide) none (some [5, 6]),
   (quadrature_permutation_usage sampleInteriorKernel [] [] [] none).2
      rfl [1, 2, 9] [1, 2, 7] (by decide) (by decide)⟩

/-- C10: an expression's output tensor has dimensions
`A[num_points][num_components][num_argument_dofs]` and its evaluation points
have dimensions `points[num_points][entity_dimension]`, consistent with the
structure's fields. -/
theorem expression_tensor_shapes (e : ExprModel) :
    e.tabulate.length = e.num_points ∧
    e.tabulate.map List.length =
      List.replicate e.num_points e.num_components ∧
    e.tabulate.map (fun m => m.map List.length) =
      List.replicate e.num_points
        (List.replicate e.num_components e.num_argument_dofs) ∧
    e.points.length = e.num_points ∧
    e.points.map List.length = List.replicate e.num_points e.entity_dimension := by
  refine ⟨?_, ?_, ?_, ?_, ?_⟩
  · simp [ExprModel.tabulate]
  · rw [List.eq_replicate_iff]
    constructor
    · simp [ExprModel.tabulate]
    · intro b hb
      simp only [ExprModel.tabulate, List.map_map, List.mem_map] at hb
      obtain ⟨i, _, rfl⟩ := hb
      simp
  · rw [List.eq_replicate_iff]
    constructor
    · simp [ExprModel.tabulate]
    · intro b hb
      simp only [ExprModel.tabulate, List.map_map, List.mem_map] at hb
      obtain ⟨i, _, rfl⟩ := hb
      rw [List.eq_replicate_iff]
      constructor
      · simp
      · intro b2 hb2
        simp only [Function.comp, List.map_map, List.mem_map] at hb2
        obtain ⟨j, _, rfl⟩ := hb2
        simp
  · simp [ExprModel.points]
  · rw [List.eq_replicate_iff]
    constructor
    · simp [ExprModel.points]
    · intro b hb
      simp only [ExprModel.points, List.map_map, List.mem_map] at hb
      obtain ⟨i, _, rfl⟩ := hb
      simp

/-- C1: for every constructed form, `form_integral_offsets` has length 4,
starts at 0, is non-decreasing, ends at (and is bounded by) the length of
`form_integrals`, and partitions `form_integrals` / `form_integral_ids` into
the three integral kinds in enum order: cell integrals in
`[offsets[0], offsets[1])`, exterior-facet integrals in
`[offsets[1], offsets[2])`, interior-facet integrals in
`[offsets[2], offsets[3])`. -/
theorem form_integral_offsets_partition (a c : List Nat) (l : List IntegralData) :
    (mkForm a c l).form_integral_offsets.length = 4 ∧
    (mkForm a c l).form_integral_offsets.getD 0 0 = 0 ∧
    (mkForm a c l).form_integral_offsets.getD 0 0 ≤
      (mkForm a c l).form_integral_offsets.getD 1 0 ∧
    (mkForm a c l).form_integral_offsets.getD 1 0 ≤
      (mkForm a c l).form_integral_offsets.getD 2 0 ∧
    (mkForm a c l).form_integral_offsets.getD 2 0 ≤
      (mkForm a c l).form_integral_offsets.getD 3 0 ∧
    (mkForm a c l).form_integral_offsets.getD 3 0 =
      (mkForm a c l).form_integrals.length ∧
    (mkForm a c l).form_integral_ids =
      (mkForm a c l).form_integrals.map (fun x => x.integralId) ∧
    ((mkForm a c l).form_integrals.take
        ((mkForm a c l).form_integral_offsets.getD 1 0)).all
      (fun x => x.kind == ufcx_integral_type.cell) = true ∧
    (((mkForm a c l).form_integrals.drop
          ((mkForm a c l).form_integral_offsets.getD 1 0)).take
        ((mkForm a c l).form_integral_offsets.getD 2 0 -
          (mkForm a c l).form_integral_offsets.getD 1 0)).all
      (fun x => x.kind == ufcx_integral_type.exterior_facet) = true ∧
    ((mkForm a c l).form_integrals.drop
        ((mkForm a c l).form_integral_offsets.getD 2 0)).all
      (fun x => x.kind == ufcx_integral_type.interior_facet) = true := by
  have hfi : (mkForm a c l).form_integrals =
      l.filter (fun x => x.kind == ufcx_integral_type.cell) ++
        l.filter (fun x => x.kind == ufcx_integral_type.exterior_facet) ++
        l.filter (fun x => x.kind == ufcx_integral_type.interior_facet) := rfl
  have h1 : (mkForm a c l).form_integral_offsets.getD 1 0 =
      (l.filter (fun x => x.kind == ufcx_integral_type.cell)).length := rfl
  have h2 : (mkForm a c l).form_integral_offsets.getD 2 0 =
      (l.filter (fun x => x.kind == ufcx_integral_type.cell)).length +
        (l.filter (fun x => x.kind == ufcx_integral_type.exterior_facet)).length := rfl
  have h3 : (mkForm a c l).form_integral_offsets.getD 3 0 =
      (l.filter (fun x => x.kind == ufcx_integral_type.cell)).length +
        (l.filter (fun x => x.kind == ufcx_integral_type.exterior_facet)).length +
        (l.filter (fun x => x.kind == ufcx_integral_type.interior_facet)).length := rfl
  refine ⟨rfl, rfl, ?_, ?_, ?_, ?_, rfl, ?_, ?_, ?_⟩
  · rw [h1]
    exact Nat.zero_le _
  · rw [h1, h2]
    exact Nat.le_add_right _ _
  · rw [h2, h3]
    exact Nat.le_add_right _ _
  · rw [h3, hfi]
    simp [Nat.add_assoc]
  · rw [hfi, h1, List.append_assoc, List.take_left]
    exact filter_all_self _ _
  · rw [hfi, h1, h2, Nat.add_sub_cancel_left, List.append_assoc, List.drop_left,
      List.take_left]
    exact filter_all_self _ _
  · rw [hfi, h2, ← List.length_append, List.drop_left]
    exact filter_all_self _ _
